import Mathlib

/-
Verification development for the arcade flight-dynamics integrator
(the physics block of the Plane component, `useFrame` body).

The state space is embedded over exact real numbers: the three.js
vector/quaternion operations the tick uses (add, multiplyScalar, length,
normalize, lerp, applyQuaternion, quaternion multiply, setFromAxisAngle)
are translated from the three.js semantics the source calls into, and the
per-frame tick is translated line by line as the function `advance`.
-/

namespace FlightSim

open Classical

/-- Three-component vector, mirroring the three.js `Vector3` values the
integrator keeps for position and velocity. -/
structure Vector3 where
  x : ℝ
  y : ℝ
  z : ℝ

/-- Componentwise sum, as `Vector3.add`. -/
def Vector3.add (v w : Vector3) : Vector3 :=
  ⟨v.x + w.x, v.y + w.y, v.z + w.z⟩

/-- Scalar multiple, as `Vector3.multiplyScalar`. -/
def Vector3.multiplyScalar (v : Vector3) (s : ℝ) : Vector3 :=
  ⟨v.x * s, v.y * s, v.z * s⟩

/-- Squared Euclidean length, as `Vector3.lengthSq`. -/
def Vector3.lengthSq (v : Vector3) : ℝ :=
  v.x ^ 2 + v.y ^ 2 + v.z ^ 2

/-- Euclidean length, as `Vector3.length`. -/
noncomputable def Vector3.length (v : Vector3) : ℝ :=
  Real.sqrt v.lengthSq

/-- Normalization, as three.js `Vector3.normalize`: the source library
divides by `length() || 1`, so a zero-length vector is divided by 1 and
returned unchanged (this is the divide-by-zero guard). -/
noncomputable def Vector3.normalize (v : Vector3) : Vector3 :=
  if v.length = 0 then v else ⟨v.x / v.length, v.y / v.length, v.z / v.length⟩

/-- Linear interpolation toward `w` with factor `alpha`, as three.js
`Vector3.lerp`: each component moves by `(w - v) * alpha`. -/
def Vector3.lerp (v w : Vector3) (alpha : ℝ) : Vector3 :=
  ⟨v.x + (w.x - v.x) * alpha, v.y + (w.y - v.y) * alpha, v.z + (w.z - v.z) * alpha⟩

/-- Quaternion with three.js component order (x, y, z imaginary, w real). -/
structure Quaternion where
  x : ℝ
  y : ℝ
  z : ℝ
  w : ℝ

/-- Hamilton product `a * b`, with the exact component formulas of three.js
`Quaternion.multiplyQuaternions(a, b)` (and hence of `a.multiply(b)`). -/
def Quaternion.multiply (a b : Quaternion) : Quaternion :=
  ⟨a.x * b.w + a.w * b.x + a.y * b.z - a.z * b.y,
   a.y * b.w + a.w * b.y + a.z * b.x - a.x * b.z,
   a.z * b.w + a.w * b.z + a.x * b.y - a.y * b.x,
   a.w * b.w - a.x * b.x - a.y * b.y - a.z * b.z⟩

/-- three.js `Quaternion.setFromAxisAngle`: half-angle construction, the
axis is assumed normalized by the caller. -/
noncomputable def Quaternion.setFromAxisAngle (axis : Vector3) (angle : ℝ) : Quaternion :=
  ⟨axis.x * Real.sin (angle / 2), axis.y * Real.sin (angle / 2),
   axis.z * Real.sin (angle / 2), Real.cos (angle / 2)⟩

/-- Squared quaternion norm, as three.js `Quaternion.lengthSq`. -/
def Quaternion.lengthSq (q : Quaternion) : ℝ :=
  q.x ^ 2 + q.y ^ 2 + q.z ^ 2 + q.w ^ 2

/-- Quaternion magnitude, as three.js `Quaternion.length`. -/
noncomputable def Quaternion.length (q : Quaternion) : ℝ :=
  Real.sqrt q.lengthSq

/-- Conjugate quaternion (negated imaginary part). -/
def Quaternion.conjugate (q : Quaternion) : Quaternion :=
  ⟨-q.x, -q.y, -q.z, q.w⟩

/-- Pure quaternion with a vector as imaginary part. -/
def Quaternion.fromVector (v : Vector3) : Quaternion :=
  ⟨v.x, v.y, v.z, 0⟩

/-- Imaginary part of a quaternion, as a vector. -/
def Quaternion.vectorPart (q : Quaternion) : Vector3 :=
  ⟨q.x, q.y, q.z⟩

/-- three.js `Vector3.applyQuaternion`: the optimized rotation formula
`v + 2 w (u x v) + u x (2 (u x v))` used by the library, which agrees with
the quaternion sandwich exactly when the quaternion is unit. -/
def Vector3.applyQuaternion (v : Vector3) (q : Quaternion) : Vector3 :=
  let tx := 2 * (q.y * v.z - q.z * v.y)
  let ty := 2 * (q.z * v.x - q.x * v.z)
  let tz := 2 * (q.x * v.y - q.y * v.x)
  ⟨v.x + q.w * tx + (q.y * tz - q.z * ty),
   v.y + q.w * ty + (q.z * tx - q.x * tz),
   v.z + q.w * tz + (q.x * ty - q.y * tx)⟩

/- Basic algebraic lemmas about the embedded vector and quaternion algebra. -/

theorem Vector3.add_zeroVec (v : Vector3) : v.add ⟨0, 0, 0⟩ = v := by
  cases v with
  | mk x y z => simp [Vector3.add]

theorem Vector3.multiplyScalar_zero (v : Vector3) : v.multiplyScalar 0 = ⟨0, 0, 0⟩ := by
  cases v with
  | mk x y z => simp [Vector3.multiplyScalar]

theorem Vector3.zeroVec_multiplyScalar (s : ℝ) :
    (Vector3.mk 0 0 0).multiplyScalar s = ⟨0, 0, 0⟩ := by
  simp [Vector3.multiplyScalar]

theorem Vector3.length_zeroVec : (Vector3.mk 0 0 0).length = 0 := by
  simp [Vector3.length, Vector3.lengthSq]

theorem Vector3.normalize_zeroVec : (Vector3.mk 0 0 0).normalize = ⟨0, 0, 0⟩ := by
  simp [Vector3.normalize]

theorem Vector3.lerp_zero (v w : Vector3) : v.lerp w 0 = v := by
  cases v with
  | mk x y z => simp [Vector3.lerp]

theorem Vector3.lengthSq_nonneg (v : Vector3) : 0 ≤ v.lengthSq := by
  simp only [Vector3.lengthSq]
  positivity

theorem Vector3.lengthSq_pos_of_ne (v : Vector3) (h : v ≠ ⟨0, 0, 0⟩) :
    0 < v.lengthSq := by
  rcases lt_or_eq_of_le v.lengthSq_nonneg with hlt | heq
  · exact hlt
  · exfalso
    apply h
    cases v with
    | mk x y z =>
      simp only [Vector3.lengthSq] at heq
      have hx : x = 0 := by nlinarith [sq_nonneg x, sq_nonneg y, sq_nonneg z]
      have hy : y = 0 := by nlinarith [sq_nonneg x, sq_nonneg y, sq_nonneg z]
      have hz : z = 0 := by nlinarith [sq_nonneg x, sq_nonneg y, sq_nonneg z]
      simp [hx, hy, hz]

theorem Vector3.length_pos_of_ne (v : Vector3) (h : v ≠ ⟨0, 0, 0⟩) :
    0 < v.length :=
  Real.sqrt_pos.mpr (v.lengthSq_pos_of_ne h)

theorem Vector3.applyQuaternion_identity (v : Vector3) :
    v.applyQuaternion ⟨0, 0, 0, 1⟩ = v := by
  cases v with
  | mk x y z => simp [Vector3.applyQuaternion]

theorem Quaternion.multiply_identity (q : Quaternion) :
    q.multiply ⟨0, 0, 0, 1⟩ = q := by
  cases q with
  | mk x y z w => simp [Quaternion.multiply]

theorem Quaternion.setFromAxisAngle_zero (axis : Vector3) :
    Quaternion.setFromAxisAngle axis 0 = ⟨0, 0, 0, 1⟩ := by
  simp [Quaternion.setFromAxisAngle]

theorem Quaternion.lengthSq_multiply (a b : Quaternion) :
    (a.multiply b).lengthSq = a.lengthSq * b.lengthSq := by
  simp only [Quaternion.multiply, Quaternion.lengthSq]
  ring

theorem Quaternion.lengthSq_conjugate (q : Quaternion) :
    q.conjugate.lengthSq = q.lengthSq := by
  simp only [Quaternion.conjugate, Quaternion.lengthSq]
  ring

theorem Quaternion.lengthSq_fromVector (v : Vector3) :
    (Quaternion.fromVector v).lengthSq = v.lengthSq := by
  simp only [Quaternion.fromVector, Quaternion.lengthSq, Vector3.lengthSq]
  ring

/-- The optimized three.js rotation formula differs from the exact
quaternion sandwich by a multiple of `lengthSq q - 1`: at a unit quaternion
they agree. This is a polynomial identity. -/
theorem Vector3.applyQuaternion_eq_sandwich_add (v : Vector3) (q : Quaternion) :
    v.applyQuaternion q =
      (((q.multiply (Quaternion.fromVector v)).multiply q.conjugate).vectorPart).add
        (v.multiplyScalar (1 - q.lengthSq)) := by
  simp only [Vector3.applyQuaternion, Quaternion.multiply, Quaternion.fromVector,
    Quaternion.conjugate, Quaternion.vectorPart, Vector3.add, Vector3.multiplyScalar,
    Quaternion.lengthSq, Vector3.mk.injEq]
  refine ⟨by ring, by ring, by ring⟩

/-- The quaternion sandwich of a pure quaternion is pure. -/
theorem Quaternion.sandwich_w (v : Vector3) (q : Quaternion) :
    ((q.multiply (Quaternion.fromVector v)).multiply q.conjugate).w = 0 := by
  simp only [Quaternion.multiply, Quaternion.fromVector, Quaternion.conjugate]
  ring

theorem Quaternion.vectorPart_lengthSq (q : Quaternion) (h : q.w = 0) :
    q.vectorPart.lengthSq = q.lengthSq := by
  simp only [Quaternion.vectorPart, Vector3.lengthSq, Quaternion.lengthSq, h]
  ring

/-- Rotating by a unit quaternion preserves squared length. -/
theorem Vector3.lengthSq_applyQuaternion (v : Vector3) (q : Quaternion)
    (h : q.lengthSq = 1) : (v.applyQuaternion q).lengthSq = v.lengthSq := by
  rw [Vector3.applyQuaternion_eq_sandwich_add, h]
  rw [show (1 : ℝ) - 1 = 0 by ring, Vector3.multiplyScalar_zero, Vector3.add_zeroVec]
  rw [Quaternion.vectorPart_lengthSq _ (Quaternion.sandwich_w v q),
    Quaternion.lengthSq_multiply, Quaternion.lengthSq_multiply,
    Quaternion.lengthSq_conjugate, Quaternion.lengthSq_fromVector, h]
  ring

/-- `setFromAxisAngle` on a unit axis yields a unit quaternion. -/
theorem Quaternion.lengthSq_setFromAxisAngle (axis : Vector3) (angle : ℝ)
    (h : axis.lengthSq = 1) :
    (Quaternion.setFromAxisAngle axis angle).lengthSq = 1 := by
  simp only [Quaternion.setFromAxisAngle, Quaternion.lengthSq]
  simp only [Vector3.lengthSq] at h
  have hsc := Real.sin_sq_add_cos_sq (angle / 2)
  nlinarith [hsc, h]

/- Physics constants, from the constants module of the repository. -/

def MAX_THRUST : ℝ := 0.5
def GRAVITY : ℝ := 0.08
def LIFT_COEFFICIENT : ℝ := 0.002
def DRAG_COEFFICIENT : ℝ := 0.0005
def ROTATION_SPEED : ℝ := 0.02
def MIN_TAKEOFF_SPEED : ℝ := 0.8
def MAX_SPEED : ℝ := 4.0

/-- Vehicle profile: the physics-relevant fields of `AircraftConfig`
(the id/name/color/description/type/maxAltitude fields are presentation
or config data the integrator never reads). -/
structure AircraftConfig where
  thrustMult : ℝ
  liftMult : ℝ
  dragMult : ℝ
  turnSpeedMult : ℝ
  maxSpeedMult : ℝ
  engineCount : ℕ

/-- Per-tick control input, mirroring `ControlState`. -/
structure ControlState where
  pitch : ℝ
  roll : ℝ
  yaw : ℝ
  throttles : List ℝ
  brake : Bool
  flaps : ℝ
  gear : Bool

/-- The integrator-owned continuous state: the `position`, `velocity`
and `quaternion` refs of the Plane component. -/
structure FlightState where
  position : Vector3
  velocity : Vector3
  quaternion : Quaternion

/-- Telemetry snapshot, mirroring `FlightData` as emitted by `onUpdate`.
The source also emits a `rotation` field holding the Euler-angle readback
of the updated quaternion; that conversion is presentation-side and no
claim touches it, so the snapshot here carries the remaining fields. -/
structure FlightData where
  position : Vector3
  velocity : ℝ
  altitude : ℝ
  throttles : List ℝ
  fuel : ℝ
  isGearDown : Bool
  flapsValue : ℝ
  brake : Bool
  pitchInput : ℝ
  rollInput : ℝ
  yawInput : ℝ

/-- Initial state set by the mount effect: position `(0, 0.6, 0)` on the
runway, identity orientation (Euler 0,0,0), zero velocity. -/
def initialState : FlightState :=
  ⟨⟨0, 0.6, 0⟩, ⟨0, 0, 0⟩, ⟨0, 0, 0, 1⟩⟩

/-- The SkyBound Mk1 trainer profile from the aircraft fleet table. -/
def trainerConfig : AircraftConfig := ⟨1.0, 1.0, 1.0, 1.0, 1.0, 1⟩

/-- The Raptor X jet profile from the aircraft fleet table. -/
def raptorConfig : AircraftConfig := ⟨2.5, 0.8, 0.6, 1.8, 2.5, 2⟩

/-- One step of the `controls.throttles.forEach((val, i) => ...)` loop:
the accumulator carries `(totalThrustPercent, yawMoment)`. Engines at index
at or past `engineCount` are skipped; the yaw moment accumulates
`side * val` with `side = (i / (engineCount - 1)) * 2 - 1` only for
multi-engine vehicles. -/
noncomputable def throttleStep (engineCount : ℕ) (acc : ℝ × ℝ) (iv : ℕ × ℝ) : ℝ × ℝ :=
  if iv.1 ≥ engineCount then acc
  else
    (acc.1 + iv.2,
     if engineCount > 1 then
       acc.2 + ((iv.1 : ℝ) / ((engineCount : ℝ) - 1) * 2 - 1) * iv.2
     else acc.2)

/-- The full throttle loop: `(totalThrustPercent, yawMoment)` computed by
folding `throttleStep` over the indexed throttle list. -/
noncomputable def throttleTotals (engineCount : ℕ) (throttles : List ℝ) : ℝ × ℝ :=
  throttles.enum.foldl (throttleStep engineCount) (0, 0)

/-- Forward body axis: local `(0, 0, -1)` rotated by the orientation. -/
def forwardAxis (q : Quaternion) : Vector3 :=
  Vector3.applyQuaternion ⟨0, 0, -1⟩ q

/-- Up body axis: local `(0, 1, 0)` rotated by the orientation. -/
def upAxis (q : Quaternion) : Vector3 :=
  Vector3.applyQuaternion ⟨0, 1, 0⟩ q

/-- Right body axis: local `(1, 0, 0)` rotated by the orientation. -/
def rightAxis (q : Quaternion) : Vector3 :=
  Vector3.applyQuaternion ⟨1, 0, 0⟩ q

/-- The scalar speed variable of a tick after the brake branch: it starts
as the velocity magnitude and is decayed by the ground-friction factor
0.95 exactly when the brake is held near the ground. -/
noncomputable def effectiveSpeed (state : FlightState) (controls : ControlState) : ℝ :=
  if controls.brake ∧ state.position.y < 1 then state.velocity.length * 0.95
  else state.velocity.length

/-- The thrust magnitude of a tick: average throttle percentage times
`MAX_THRUST` and the profile thrust multiplier, forced to zero by the
brake branch near the ground. -/
noncomputable def thrustValOf (config : AircraftConfig) (state : FlightState)
    (controls : ControlState) : ℝ :=
  if controls.brake ∧ state.position.y < 1 then 0
  else
    (throttleTotals config.engineCount controls.throttles).1 /
        max 1 (config.engineCount : ℝ) / 100 * MAX_THRUST * config.thrustMult

/-- Lift vector of a tick: `up * (effectiveLift * delta)` with
`effectiveLift = max 0 (liftFactor * LIFT_COEFFICIENT * speed * 1000 * liftMult)`
and `liftFactor = speed / (MAX_SPEED * maxSpeedMult) * (1 + flaps * 0.3)`. -/
noncomputable def liftVectorOf (config : AircraftConfig) (controls : ControlState)
    (up : Vector3) (speed delta : ℝ) : Vector3 :=
  up.multiplyScalar
    (max 0 (speed / (MAX_SPEED * config.maxSpeedMult) * (1 + controls.flaps * 0.3) *
        LIFT_COEFFICIENT * speed * 1000 * config.liftMult) * delta)

/-- Drag magnitude of a tick: quadratic in the scalar speed, plus the gear
and flaps penalties. -/
noncomputable def dragValOf (config : AircraftConfig) (controls : ControlState)
    (speed : ℝ) : ℝ :=
  speed * speed * DRAG_COEFFICIENT * config.dragMult +
    (if controls.gear then 0.001 else 0) + controls.flaps * 0.002

/-- Drag vector of a tick: the normalized velocity scaled by the negated
drag magnitude (the normalization guard returns the zero vector at zero
velocity). -/
noncomputable def dragVectorOf (config : AircraftConfig) (controls : ControlState)
    (velocity : Vector3) (speed : ℝ) : Vector3 :=
  velocity.normalize.multiplyScalar (-(dragValOf config controls speed))

/-- The velocity after force integration and before the ground clamp:
the thrust vector is scaled by `delta` at application, gravity and lift
carry their `delta` factors from construction, and the drag vector is
added without any `delta` scaling, exactly as in the source. -/
noncomputable def integratedVelocity (config : AircraftConfig) (state : FlightState)
    (controls : ControlState) (delta : ℝ) : Vector3 :=
  (((state.velocity.add
        (((forwardAxis state.quaternion).multiplyScalar
            (thrustValOf config state controls)).multiplyScalar delta)).add
      ⟨0, -GRAVITY * delta * 60, 0⟩).add
    (liftVectorOf config controls (upAxis state.quaternion)
      (effectiveSpeed state controls) delta)).add
    (dragVectorOf config controls state.velocity (effectiveSpeed state controls))

/-- Ground clamp and stability damping applied to the integrated velocity
`u`: on ground (previous `position.y <= 0.6`) a negative vertical component
is zeroed and the whole vector is damped by 0.995; airborne at speed above
0.1 the velocity is blended toward `forward * speed` with factor
`delta * 0.5`. -/
noncomputable def postIntegration (state : FlightState) (controls : ControlState)
    (delta : ℝ) (u : Vector3) : Vector3 :=
  let u1 := if state.position.y ≤ 0.6 then
      (if u.y < 0 then ⟨u.x, 0, u.z⟩ else u).multiplyScalar 0.995
    else u
  if ¬ state.position.y ≤ 0.6 ∧ effectiveSpeed state controls > 0.1 then
    u1.lerp ((forwardAxis state.quaternion).multiplyScalar
      (effectiveSpeed state controls)) (delta * 0.5)
  else u1

/-- The per-frame physics tick, translated line by line from the `useFrame`
body (gear animation, control-surface animation and camera placement are
presentation and do not touch the physical state). Returns the next flight
state and the telemetry snapshot passed to `onUpdate`. -/
noncomputable def advance (config : AircraftConfig) (state : FlightState)
    (controls : ControlState) (delta : ℝ) : FlightState × FlightData :=
  let forward := forwardAxis state.quaternion
  let up := upAxis state.quaternion
  let right := rightAxis state.quaternion
  let speed0 := state.velocity.length
  let totals := throttleTotals config.engineCount controls.throttles
  let yawMoment := totals.2
  let avgThrottle := totals.1 / max 1 (config.engineCount : ℝ)
  let thrustVal := if controls.brake ∧ state.position.y < 1 then 0
    else avgThrottle / 100 * MAX_THRUST * config.thrustMult
  let speed := if controls.brake ∧ state.position.y < 1 then speed0 * 0.95 else speed0
  let thrustVector := forward.multiplyScalar thrustVal
  let gravityVector : Vector3 := ⟨0, -GRAVITY * delta * 60, 0⟩
  let liftVector := liftVectorOf config controls up speed delta
  let dragVector := dragVectorOf config controls state.velocity speed
  let isOnGround := state.position.y ≤ 0.6
  let v2 := (((state.velocity.add (thrustVector.multiplyScalar delta)).add
      gravityVector).add liftVector).add dragVector
  let v3 := if isOnGround then
      (if v2.y < 0 then ⟨v2.x, 0, v2.z⟩ else v2).multiplyScalar 0.995
    else v2
  let pos1 := if isOnGround then ⟨state.position.x, 0.6, state.position.z⟩
    else state.position
  let controlAuthority := min (speed / MIN_TAKEOFF_SPEED) 1.5 * ROTATION_SPEED *
    config.turnSpeedMult
  let pitchQuat := Quaternion.setFromAxisAngle right
    (controls.pitch * controlAuthority * delta * 60)
  let rollQuat := Quaternion.setFromAxisAngle forward
    (-controls.roll * controlAuthority * 1.5 * delta * 60)
  let totalYawInput := -controls.yaw + yawMoment * 0.0005
  let yawQuat := Quaternion.setFromAxisAngle up
    (totalYawInput * (if isOnGround then 0.02 else controlAuthority * 0.5) * delta * 60)
  let q1 := ((state.quaternion.multiply pitchQuat).multiply yawQuat).multiply rollQuat
  let v4 := if ¬ isOnGround ∧ speed > 0.1 then
      v3.lerp (forward.multiplyScalar speed) (delta * 0.5)
    else v3
  let pos2 := pos1.add (v4.multiplyScalar (delta * 60))
  (⟨pos2, v4, q1⟩,
   { position := pos2
     velocity := speed
     altitude := pos2.y
     throttles := controls.throttles
     fuel := 100
     isGearDown := controls.gear
     flapsValue := controls.flaps
     brake := controls.brake
     pitchInput := controls.pitch
     rollInput := controls.roll
     yawInput := controls.yaw })

/-- The tick with the two scalars written by the brake branch (thrust
magnitude and scalar speed) lifted to parameters; everything else is the
body of `advance` verbatim. Used to state that the brake branch influences
the tick only through these two scalars. -/
noncomputable def tickCore (config : AircraftConfig) (state : FlightState)
    (controls : ControlState) (delta thrustVal speed : ℝ) : FlightState × FlightData :=
  let forward := forwardAxis state.quaternion
  let up := upAxis state.quaternion
  let right := rightAxis state.quaternion
  let totals := throttleTotals config.engineCount controls.throttles
  let yawMoment := totals.2
  let thrustVector := forward.multiplyScalar thrustVal
  let gravityVector : Vector3 := ⟨0, -GRAVITY * delta * 60, 0⟩
  let liftVector := liftVectorOf config controls up speed delta
  let dragVector := dragVectorOf config controls state.velocity speed
  let isOnGround := state.position.y ≤ 0.6
  let v2 := (((state.velocity.add (thrustVector.multiplyScalar delta)).add
      gravityVector).add liftVector).add dragVector
  let v3 := if isOnGround then
      (if v2.y < 0 then ⟨v2.x, 0, v2.z⟩ else v2).multiplyScalar 0.995
    else v2
  let pos1 := if isOnGround then ⟨state.position.x, 0.6, state.position.z⟩
    else state.position
  let controlAuthority := min (speed / MIN_TAKEOFF_SPEED) 1.5 * ROTATION_SPEED *
    config.turnSpeedMult
  let pitchQuat := Quaternion.setFromAxisAngle right
    (controls.pitch * controlAuthority * delta * 60)
  let rollQuat := Quaternion.setFromAxisAngle forward
    (-controls.roll * controlAuthority * 1.5 * delta * 60)
  let totalYawInput := -controls.yaw + yawMoment * 0.0005
  let yawQuat := Quaternion.setFromAxisAngle up
    (totalYawInput * (if isOnGround then 0.02 else controlAuthority * 0.5) * delta * 60)
  let q1 := ((state.quaternion.multiply pitchQuat).multiply yawQuat).multiply rollQuat
  let v4 := if ¬ isOnGround ∧ speed > 0.1 then
      v3.lerp (forward.multiplyScalar speed) (delta * 0.5)
    else v3
  let pos2 := pos1.add (v4.multiplyScalar (delta * 60))
  (⟨pos2, v4, q1⟩,
   { position := pos2
     velocity := speed
     altitude := pos2.y
     throttles := controls.throttles
     fuel := 100
     isGearDown := controls.gear
     flapsValue := controls.flaps
     brake := controls.brake
     pitchInput := controls.pitch
     rollInput := controls.roll
     yawInput := controls.yaw })

/-- Iterated ticks: fold `advance` over a list of per-tick
(control input, elapsed time) pairs, keeping the flight state. -/
noncomputable def runTicks (config : AircraftConfig) (state : FlightState)
    (ticks : List (ControlState × ℝ)) : FlightState :=
  ticks.foldl (fun s p => (advance config s p.1 p.2).1) state

/-- Velocity update as the specification words it: thrust and drag both
scaled by `delta` at the point of application, gravity and lift pre-scaled
by `delta` as computed. This definition follows the wording of the spec
(integration step 7) and is compared against the source translation
`integratedVelocity`, whose drag term carries no `delta` factor. -/
noncomputable def specVelocityUpdate (config : AircraftConfig) (state : FlightState)
    (controls : ControlState) (delta : ℝ) : Vector3 :=
  (((state.velocity.add
        (((forwardAxis state.quaternion).multiplyScalar
            (thrustValOf config state controls)).multiplyScalar delta)).add
      ⟨0, -GRAVITY * delta * 60, 0⟩).add
    (liftVectorOf config controls (upAxis state.quaternion)
      (effectiveSpeed state controls) delta)).add
    ((dragVectorOf config controls state.velocity
      (effectiveSpeed state controls)).multiplyScalar delta)

/-- All-axes-neutral control input with a single zero throttle (gear down,
brake released) used to instantiate concrete scenarios. -/
def zeroControls : ControlState := ⟨0, 0, 0, [0], false, 0, true⟩

/-- Full-throttle input on one engine, all axes neutral, used for the
takeoff-roll scenario. -/
def fullThrottle : ControlState := ⟨0, 0, 0, [100], false, 0, true⟩

/-- Level cruise scenario: airborne at altitude 10, flying along `-z` at
speed 10, identity orientation. -/
def cruiseState : FlightState :=
  ⟨⟨0, 10, 0⟩, ⟨0, 0, -10⟩, ⟨0, 0, 0, 1⟩⟩

/-- `advance` factors through `tickCore` with the brake-branch scalars:
the brake branch influences the tick exactly through the thrust magnitude
and the scalar speed. -/
theorem advance_eq_tickCore (config : AircraftConfig) (state : FlightState)
    (controls : ControlState) (delta : ℝ) :
    advance config state controls delta =
      tickCore config state controls delta (thrustValOf config state controls)
        (effectiveSpeed state controls) := rfl

/-- The velocity produced by `advance` is the integrated velocity (with its
source scaling of each force term) passed through the ground clamp and the
stability damping. -/
theorem advance_velocity_eq (config : AircraftConfig) (state : FlightState)
    (controls : ControlState) (delta : ℝ) :
    (advance config state controls delta).1.velocity =
      postIntegration state controls delta
        (integratedVelocity config state controls delta) := rfl

/-- One tick preserves unit squared norm of the orientation: the three
incremental rotations are built on axes obtained by rotating unit basis
vectors by the current unit orientation, so each is a unit quaternion, and
the Hamilton product of unit quaternions is unit. -/
theorem advance_quaternion_lengthSq (config : AircraftConfig) (state : FlightState)
    (controls : ControlState) (delta : ℝ) (h : state.quaternion.lengthSq = 1) :
    (advance config state controls delta).1.quaternion.lengthSq = 1 := by
  have hright : (rightAxis state.quaternion).lengthSq = 1 := by
    rw [rightAxis, Vector3.lengthSq_applyQuaternion _ _ h]
    simp [Vector3.lengthSq]
  have hup : (upAxis state.quaternion).lengthSq = 1 := by
    rw [upAxis, Vector3.lengthSq_applyQuaternion _ _ h]
    simp [Vector3.lengthSq]
  have hforward : (forwardAxis state.quaternion).lengthSq = 1 := by
    rw [forwardAxis, Vector3.lengthSq_applyQuaternion _ _ h]
    simp [Vector3.lengthSq]
  show (((state.quaternion.multiply _).multiply _).multiply _).lengthSq = 1
  rw [Quaternion.lengthSq_multiply, Quaternion.lengthSq_multiply,
    Quaternion.lengthSq_multiply, h,
    Quaternion.lengthSq_setFromAxisAngle _ _ hright,
    Quaternion.lengthSq_setFromAxisAngle _ _ hup,
    Quaternion.lengthSq_setFromAxisAngle _ _ hforward]
  ring

/-- Folding the throttle loop over an all-zero throttle list leaves the
accumulator untouched, from any starting index. -/
theorem throttleFold_allZero (n : ℕ) (ts : List ℝ) (h : ∀ x ∈ ts, x = 0) :
    ∀ (k : ℕ) (acc : ℝ × ℝ), (ts.enumFrom k).foldl (throttleStep n) acc = acc := by
  induction ts with
  | nil => intro k acc; simp [List.enumFrom]
  | cons a ts ih =>
    intro k acc
    have ha : a = 0 := h a (by simp)
    have h2 : ∀ x ∈ ts, x = 0 := fun x hx => h x (by simp [hx])
    simp only [List.enumFrom, List.foldl_cons]
    have hstep : throttleStep n acc (k, a) = acc := by
      simp only [throttleStep, ha]
      split_ifs <;> simp
    rw [hstep, ih h2 (k + 1) acc]

/-- With all throttles zero the loop yields zero total thrust percentage
and zero yaw moment. -/
theorem throttleTotals_allZero (n : ℕ) (ts : List ℝ) (h : ∀ x ∈ ts, x = 0) :
    throttleTotals n ts = (0, 0) :=
  throttleFold_allZero n ts h 0 (0, 0)

/-- For a single-engine vehicle the yaw-moment component of the throttle
loop accumulator never changes. -/
theorem throttleFold_single_yaw (ts : List ℝ) :
    ∀ (k : ℕ) (acc : ℝ × ℝ), ((ts.enumFrom k).foldl (throttleStep 1) acc).2 = acc.2 := by
  induction ts with
  | nil => intro k acc; simp [List.enumFrom]
  | cons a ts ih =>
    intro k acc
    simp only [List.enumFrom, List.foldl_cons]
    rw [ih (k + 1) (throttleStep 1 acc (k, a))]
    simp only [throttleStep]
    split_ifs with h1 h2
    · rfl
    · omega
    · rfl

/-- One tick from the runway rest state with neutral axes and all-zero
throttles returns the rest state exactly: gravity is absorbed by the
ground clamp, no other force is nonzero, and all rotation increments are
the identity quaternion. -/
theorem advance_equilibrium_step (c : AircraftConfig) (i : ControlState) (d : ℝ)
    (hp : i.pitch = 0) (hr : i.roll = 0) (hy : i.yaw = 0)
    (ht : ∀ x ∈ i.throttles, x = 0) (hd : 0 < d) :
    (advance c initialState i d).1 = initialState := by
  have htt := throttleTotals_allZero c.engineCount i.throttles ht
  have hpos : 0 < GRAVITY * d := by
    rw [GRAVITY]; nlinarith
  simp only [advance, initialState, htt, hp, hr, hy]
  norm_num [forwardAxis, upAxis, rightAxis, Vector3.applyQuaternion_identity,
    Vector3.length_zeroVec, Vector3.normalize_zeroVec, Vector3.multiplyScalar_zero,
    Vector3.zeroVec_multiplyScalar, Vector3.add, Vector3.add_zeroVec,
    liftVectorOf, dragVectorOf, dragValOf, Quaternion.setFromAxisAngle_zero,
    Quaternion.multiply_identity, Vector3.multiplyScalar, hpos]

/-- Control input with the brake held: one engine at 50 percent, axes
neutral, gear down. -/
def brakeControls : ControlState := ⟨0, 0, 0, [50], true, 0, true⟩

/-- The position produced by `advance` is the (possibly ground-pinned)
previous position advanced by the post-clamp velocity times `delta * 60`. -/
theorem advance_position_eq (config : AircraftConfig) (state : FlightState)
    (controls : ControlState) (delta : ℝ) :
    (advance config state controls delta).1.position =
      (if state.position.y ≤ 0.6 then
          Vector3.mk state.position.x 0.6 state.position.z
        else state.position).add
        ((postIntegration state controls delta
            (integratedVelocity config state controls delta)).multiplyScalar
          (delta * 60)) := rfl

theorem length_v10 : (Vector3.mk 0 0 (-10)).length = 10 := by
  rw [Vector3.length, Vector3.lengthSq]
  rw [show ((0:ℝ) ^ 2 + 0 ^ 2 + (-10) ^ 2) = 10 ^ 2 by norm_num]
  rw [Real.sqrt_sq (by norm_num : (0:ℝ) ≤ 10)]

/-- Concrete tick at the cruise scenario with `delta = 0`: the velocity
still changes, by the full (un-dt-scaled) drag vector. -/
theorem advance_cruise_velocity :
    (advance trainerConfig cruiseState zeroControls 0).1.velocity =
      ⟨0, 0, -(9.949 : ℝ)⟩ := by
  simp only [advance, cruiseState, zeroControls, trainerConfig]
  norm_num [forwardAxis, upAxis, rightAxis, Vector3.applyQuaternion_identity,
    length_v10, Vector3.normalize, Vector3.multiplyScalar_zero,
    Vector3.zeroVec_multiplyScalar, Vector3.add, Vector3.add_zeroVec,
    liftVectorOf, dragVectorOf, dragValOf, Vector3.multiplyScalar,
    Vector3.lerp, MAX_SPEED, LIFT_COEFFICIENT, DRAG_COEFFICIENT, GRAVITY]

/-- At `delta = 0` the spec-worded velocity update (with drag scaled by
`dt` at application) leaves the cruise velocity untouched. -/
theorem specVelocityUpdate_cruise :
    specVelocityUpdate trainerConfig cruiseState zeroControls 0 =
      ⟨0, 0, -(10 : ℝ)⟩ := by
  simp only [specVelocityUpdate, cruiseState, zeroControls, trainerConfig]
  norm_num [forwardAxis, upAxis, rightAxis, Vector3.applyQuaternion_identity,
    Vector3.multiplyScalar_zero, Vector3.zeroVec_multiplyScalar, Vector3.add,
    Vector3.add_zeroVec, liftVectorOf, dragVectorOf, dragValOf,
    Vector3.multiplyScalar, GRAVITY]

theorem throttleTotals_single_100 : throttleTotals 1 [100] = (100, 0) := by
  norm_num [throttleTotals, throttleStep, List.enum, List.enumFrom]

/-- First tick of the takeoff roll: full throttle from rest, one 60 Hz
frame; the integrated thrust survives the ground clamp as a forward
velocity of `0.995 / 120`. -/
theorem advance_takeoff_velocity :
    (advance trainerConfig initialState fullThrottle (1 / 60)).1.velocity =
      ⟨0, 0, -(199 / 24000 : ℝ)⟩ := by
  simp only [advance, initialState, fullThrottle, trainerConfig,
    throttleTotals_single_100]
  norm_num [forwardAxis, upAxis, rightAxis, Vector3.applyQuaternion_identity,
    Vector3.length_zeroVec, Vector3.normalize_zeroVec, Vector3.multiplyScalar_zero,
    Vector3.zeroVec_multiplyScalar, Vector3.add, Vector3.add_zeroVec,
    liftVectorOf, dragVectorOf, dragValOf, Vector3.multiplyScalar,
    MAX_SPEED, LIFT_COEFFICIENT, DRAG_COEFFICIENT, GRAVITY, MAX_THRUST]

/-- The telemetry of that same takeoff tick reports speed 0: the scalar
speed variable was sampled before integration. -/
theorem advance_takeoff_telemetry_velocity :
    (advance trainerConfig initialState fullThrottle (1 / 60)).2.velocity = 0 := by
  simp only [advance, initialState, fullThrottle, trainerConfig]
  norm_num [Vector3.length_zeroVec]

/-- C1 counterexample: a zero-dt tick does not leave the flight state
unchanged. At the cruise scenario (airborne, speed 10) with neutral input
and `dt = 0`, the state after `advance` differs from the state before: the
drag vector is added to the velocity without any dt scaling, shifting the
forward speed from 10 to 9.949 — a change three orders of magnitude above
any floating-point tolerance. -/
theorem advance_zero_dt_changes_state :
    (advance trainerConfig cruiseState zeroControls 0).1 ≠ cruiseState := by
  intro h
  have hv : (advance trainerConfig cruiseState zeroControls 0).1.velocity.z =
      cruiseState.velocity.z := by rw [h]
  rw [advance_cruise_velocity] at hv
  norm_num [cruiseState] at hv

/-- C1 amended: calling `advance` with `dt = 0` leaves the orientation
exactly unchanged and leaves the position unchanged except that the ground
clamp pins `position.y` to 0.6 when the state starts at or below ground
level; the velocity is not preserved in general (the drag contribution and
the on-ground damping are not scaled by dt). -/
theorem advance_zero_dt_keeps_pose (c : AircraftConfig) (s : FlightState)
    (i : ControlState) :
    (advance c s i 0).1.quaternion = s.quaternion ∧
      (advance c s i 0).1.position =
        (if s.position.y ≤ 0.6 then Vector3.mk s.position.x 0.6 s.position.z
         else s.position) := by
  constructor
  · show (((s.quaternion.multiply _).multiply _).multiply _) = s.quaternion
    norm_num [Quaternion.setFromAxisAngle_zero, Quaternion.multiply_identity]
  · rw [advance_position_eq]
    rw [show (0:ℝ) * 60 = 0 by norm_num, Vector3.multiplyScalar_zero,
      Vector3.add_zeroVec]

/-- C2 counterexample: the velocity produced by `advance` differs from the
spec-worded update in which the drag contribution is scaled by dt at the
point of application. At the cruise scenario with `dt = 0` the spec-worded
update returns the velocity unchanged while the source adds the full drag
vector. -/
theorem drag_unscaled_by_dt_cex :
    (advance trainerConfig cruiseState zeroControls 0).1.velocity ≠
      specVelocityUpdate trainerConfig cruiseState zeroControls 0 := by
  rw [advance_cruise_velocity, specVelocityUpdate_cruise]
  intro h
  have := congrArg Vector3.z h
  norm_num at this

/-- C2 amended: in every tick the velocity update adds the thrust
contribution scaled by dt at application and the gravity and lift
contributions pre-scaled by dt as computed, while the drag contribution is
added with no dt scaling at all; the result then passes through the ground
clamp and stability damping. The right-hand side exhibits this scaling
structure term by term. -/
theorem velocity_integration_decomposition (c : AircraftConfig) (s : FlightState)
    (i : ControlState) (d : ℝ) :
    (advance c s i d).1.velocity =
      postIntegration s i d (integratedVelocity c s i d) :=
  advance_velocity_eq c s i d

/-- C3 counterexample: the telemetry scalar speed does not read back the
updated state. On the first full-throttle tick from rest the telemetry
reports speed 0 while the updated velocity has positive magnitude. -/
theorem telemetry_speed_stale_cex :
    (advance trainerConfig initialState fullThrottle (1 / 60)).2.velocity ≠
      ((advance trainerConfig initialState fullThrottle (1 / 60)).1.velocity).length := by
  rw [advance_takeoff_telemetry_velocity, advance_takeoff_velocity]
  intro h
  have hpos : (0:ℝ) < (Vector3.mk 0 0 (-(199 / 24000 : ℝ))).length := by
    apply Vector3.length_pos_of_ne
    intro hv
    have := congrArg Vector3.z hv
    norm_num at this
  rw [← h] at hpos
  exact lt_irrefl 0 hpos

/-- C3 amended: the telemetry snapshot is a pure function of the pre-tick
state, the tick input and dt; its position and altitude fields read back
the updated state and the input fields echo the tick input, but the scalar
speed field is the pre-integration speed (after the brake friction decay),
not a readback of the updated velocity. -/
theorem telemetry_of_prestate_and_input (c : AircraftConfig) (s : FlightState)
    (i : ControlState) (d : ℝ) :
    (advance c s i d).2 =
      { position := (advance c s i d).1.position
        velocity := effectiveSpeed s i
        altitude := (advance c s i d).1.position.y
        throttles := i.throttles
        fuel := 100
        isGearDown := i.gear
        flapsValue := i.flaps
        brake := i.brake
        pitchInput := i.pitch
        rollInput := i.roll
        yawInput := i.yaw } := rfl

/-- Iterating `advance` preserves unit squared norm of the orientation. -/
theorem runTicks_quaternion_lengthSq (c : AircraftConfig)
    (ticks : List (ControlState × ℝ)) :
    ∀ s : FlightState, s.quaternion.lengthSq = 1 →
      (runTicks c s ticks).quaternion.lengthSq = 1 := by
  induction ticks with
  | nil => intro s h; simpa [runTicks] using h
  | cons t ts ih =>
    intro s h
    have hstep := advance_quaternion_lengthSq c s t.1 t.2 h
    show (runTicks c (advance c s t.1 t.2).1 ts).quaternion.lengthSq = 1
    exact ih _ hstep

/-- C4: starting from a unit orientation quaternion, after any number of
`advance` ticks with any sequence of control inputs and time steps, the
orientation quaternion magnitude equals 1 (exactly, in the real-arithmetic
model: each incremental rotation is built about an axis that is a unit
basis vector rotated by the current unit orientation, so the three
composed factors are unit quaternions). -/
theorem orientation_unit_norm_invariant (c : AircraftConfig)
    (ticks : List (ControlState × ℝ)) (s : FlightState)
    (h : s.quaternion.length = 1) :
    (runTicks c s ticks).quaternion.length = 1 := by
  rw [Quaternion.length] at h
  have h2 : s.quaternion.lengthSq = 1 := Real.sqrt_eq_one.mp h
  rw [Quaternion.length, runTicks_quaternion_lengthSq c ticks s h2, Real.sqrt_one]

/-- C4 witness: the invariant instantiated at the cruise state and one
full-throttle tick. -/
theorem orientation_unit_norm_invariant_witness :
    cruiseState.quaternion.length = 1 ∧
      (runTicks trainerConfig cruiseState [(fullThrottle, 1 / 60)]).quaternion.length = 1 := by
  have h1 : cruiseState.quaternion.length = 1 := by
    norm_num [cruiseState, Quaternion.length, Quaternion.lengthSq]
  exact ⟨h1, orientation_unit_norm_invariant trainerConfig _ cruiseState h1⟩

/-- C5: starting at rest on the ground at `(0, 0.6, 0)` with identity
orientation, any number of ticks whose inputs have neutral axes and
all-zero throttles and whose time steps are positive leave the velocity
exactly zero and `position.y` exactly 0.6: the gravity increment is
absorbed by the ground clamp each tick. -/
theorem zero_input_ground_equilibrium (c : AircraftConfig)
    (ticks : List (ControlState × ℝ)) (hc : 0 < c.maxSpeedMult)
    (h : ∀ p ∈ ticks, p.1.pitch = 0 ∧ p.1.roll = 0 ∧ p.1.yaw = 0 ∧
      (∀ x ∈ p.1.throttles, x = 0) ∧ 0 < p.2) :
    (runTicks c initialState ticks).velocity = ⟨0, 0, 0⟩ ∧
      (runTicks c initialState ticks).position.y = 0.6 := by
  have key : ∀ ticks2 : List (ControlState × ℝ),
      (∀ p ∈ ticks2, p.1.pitch = 0 ∧ p.1.roll = 0 ∧ p.1.yaw = 0 ∧
        (∀ x ∈ p.1.throttles, x = 0) ∧ 0 < p.2) →
      runTicks c initialState ticks2 = initialState := by
    intro ticks2
    induction ticks2 with
    | nil => intro _; rfl
    | cons t ts ih =>
      intro h2
      obtain ⟨hp, hr, hy, hts, hd⟩ := h2 t (by simp)
      have hstep := advance_equilibrium_step c t.1 t.2 hp hr hy hts hd
      show runTicks c (advance c initialState t.1 t.2).1 ts = initialState
      rw [hstep]
      exact ih fun p hp2 => h2 p (by simp [hp2])
  rw [key ticks h]
  norm_num [initialState]

/-- C5 witness: the equilibrium instantiated at the trainer profile and
one 60 Hz tick of neutral input. -/
theorem zero_input_ground_equilibrium_witness :
    (0 : ℝ) < trainerConfig.maxSpeedMult ∧
      (runTicks trainerConfig initialState [(zeroControls, 1 / 60)]).velocity = ⟨0, 0, 0⟩ ∧
      (runTicks trainerConfig initialState [(zeroControls, 1 / 60)]).position.y = 0.6 := by
  refine ⟨by norm_num [trainerConfig], ?_⟩
  exact zero_input_ground_equilibrium trainerConfig [(zeroControls, 1 / 60)]
    (by norm_num [trainerConfig])
    (by intro p hp; simp at hp; simp [hp, zeroControls])

/-- C6: for a profile with positive drag multiplier and a valid (nonneg)
flaps input, whenever the velocity vector is nonzero the drag contribution
of the tick is exactly antiparallel to the velocity (a negative scalar
multiple of it), and at zero velocity the normalization guard makes the
drag contribution the zero vector (in the source, `normalize` divides by
`length() || 1`, so no NaN can arise). -/
theorem drag_antiparallel_and_zero_guard (c : AircraftConfig) (s : FlightState)
    (i : ControlState) (hm : 0 < c.dragMult) (hf : 0 ≤ i.flaps) :
    (s.velocity ≠ ⟨0, 0, 0⟩ →
      ∃ k : ℝ, 0 < k ∧
        dragVectorOf c i s.velocity (effectiveSpeed s i) =
          s.velocity.multiplyScalar (-k)) ∧
    (s.velocity = ⟨0, 0, 0⟩ →
      dragVectorOf c i s.velocity (effectiveSpeed s i) = ⟨0, 0, 0⟩) := by
  constructor
  · intro hv
    have hlpos : 0 < s.velocity.length := Vector3.length_pos_of_ne _ hv
    have hspos : 0 < effectiveSpeed s i := by
      rw [effectiveSpeed]; split_ifs <;> nlinarith
    have hgear : (0:ℝ) ≤ if i.gear then 0.001 else 0 := by
      split_ifs <;> norm_num
    have hdrag : 0 < dragValOf c i (effectiveSpeed s i) := by
      rw [dragValOf]
      have h1 : 0 < effectiveSpeed s i * effectiveSpeed s i * DRAG_COEFFICIENT *
          c.dragMult := by
        rw [DRAG_COEFFICIENT]
        exact mul_pos (mul_pos (mul_pos hspos hspos) (by norm_num)) hm
      nlinarith
    refine ⟨dragValOf c i (effectiveSpeed s i) / s.velocity.length,
      div_pos hdrag hlpos, ?_⟩
    have hl0 : s.velocity.length ≠ 0 := ne_of_gt hlpos
    rw [dragVectorOf, Vector3.normalize, if_neg hl0]
    simp only [Vector3.multiplyScalar, Vector3.mk.injEq]
    refine ⟨?_, ?_, ?_⟩ <;> field_simp
  · intro hv
    rw [dragVectorOf, hv, Vector3.normalize_zeroVec, Vector3.zeroVec_multiplyScalar]

/-- C6 witness: the drag direction property instantiated at the cruise
scenario on the trainer profile. -/
theorem drag_antiparallel_and_zero_guard_witness :
    (0 : ℝ) < trainerConfig.dragMult ∧ (0 : ℝ) ≤ zeroControls.flaps ∧
      ((cruiseState.velocity ≠ ⟨0, 0, 0⟩ →
        ∃ k : ℝ, 0 < k ∧
          dragVectorOf trainerConfig zeroControls cruiseState.velocity
              (effectiveSpeed cruiseState zeroControls) =
            cruiseState.velocity.multiplyScalar (-k)) ∧
      (cruiseState.velocity = ⟨0, 0, 0⟩ →
        dragVectorOf trainerConfig zeroControls cruiseState.velocity
            (effectiveSpeed cruiseState zeroControls) = ⟨0, 0, 0⟩)) := by
  refine ⟨by norm_num [trainerConfig], by norm_num [zeroControls], ?_⟩
  exact drag_antiparallel_and_zero_guard trainerConfig cruiseState zeroControls
    (by norm_num [trainerConfig]) (by norm_num [zeroControls])

/-- C7: for a 2-engine vehicle, engine 0 at throttle T with engine 1 idle
yields the exact negation of the yaw moment produced by engine 1 at
throttle T with engine 0 idle, for every T in the valid range: the side
coefficients of the two engines are -1 and 1. -/
theorem differential_thrust_antisymmetric (c : AircraftConfig) (T : ℝ)
    (hc : c.engineCount = 2) (h0 : 0 ≤ T) (h1 : T ≤ 100) :
    (throttleTotals c.engineCount [T, 0]).2 =
      -(throttleTotals c.engineCount [0, T]).2 := by
  rw [hc]
  norm_num [throttleTotals, throttleStep, List.enum, List.enumFrom]

/-- C7 witness: the antisymmetry instantiated at the Raptor X profile and
throttle 50. -/
theorem differential_thrust_antisymmetric_witness :
    raptorConfig.engineCount = 2 ∧ (0:ℝ) ≤ 50 ∧ (50:ℝ) ≤ 100 ∧
      (throttleTotals raptorConfig.engineCount [(50 : ℝ), 0]).2 =
        -(throttleTotals raptorConfig.engineCount [(0 : ℝ), 50]).2 :=
  ⟨rfl, by norm_num, by norm_num,
    differential_thrust_antisymmetric raptorConfig 50 rfl (by norm_num) (by norm_num)⟩

/-- C8: for a single-engine vehicle the yaw moment computed by the
throttle loop is 0 for every throttle sequence in the valid range: the
differential-thrust branch is guarded by `engineCount > 1`. -/
theorem single_engine_yaw_zero (c : AircraftConfig) (ts : List ℝ)
    (hc : c.engineCount = 1) (hts : ∀ x ∈ ts, 0 ≤ x ∧ x ≤ 100) :
    (throttleTotals c.engineCount ts).2 = 0 := by
  rw [hc, throttleTotals]
  exact throttleFold_single_yaw ts 0 (0, 0)

/-- C8 witness: yaw immunity instantiated at the trainer profile and a
single 50 percent throttle. -/
theorem single_engine_yaw_zero_witness :
    trainerConfig.engineCount = 1 ∧
      (∀ x ∈ [(50 : ℝ)], 0 ≤ x ∧ x ≤ 100) ∧
      (throttleTotals trainerConfig.engineCount [(50 : ℝ)]).2 = 0 :=
  ⟨rfl, by norm_num,
    single_engine_yaw_zero trainerConfig [(50 : ℝ)] rfl (by norm_num)⟩

/-- C9: when the ground clamp fires (previous `position.y <= 0.6`) the
new velocity is the integrated velocity with only a negative vertical
component zeroed, the whole vector then damped by the uniform factor
0.995; and if the integrated vertical velocity is positive the vehicle
leaves the ground on that same tick (`position.y` rises above 0.6). -/
theorem ground_clamp_only_negative_vertical (c : AircraftConfig) (s : FlightState)
    (i : ControlState) (d : ℝ) (h : s.position.y ≤ 0.6) :
    (advance c s i d).1.velocity =
      (if (integratedVelocity c s i d).y < 0 then
          Vector3.mk (integratedVelocity c s i d).x 0 (integratedVelocity c s i d).z
        else integratedVelocity c s i d).multiplyScalar 0.995 ∧
    (0 < (integratedVelocity c s i d).y → 0 < d →
      0.6 < (advance c s i d).1.position.y) := by
  have hclamp : postIntegration s i d (integratedVelocity c s i d) =
      (if (integratedVelocity c s i d).y < 0 then
          Vector3.mk (integratedVelocity c s i d).x 0 (integratedVelocity c s i d).z
        else integratedVelocity c s i d).multiplyScalar 0.995 := by
    rw [postIntegration]
    simp [h]
  constructor
  · rw [advance_velocity_eq, hclamp]
  · intro hu hd
    rw [advance_position_eq, if_pos h, hclamp, if_neg (not_lt.mpr (le_of_lt hu))]
    simp only [Vector3.add, Vector3.multiplyScalar]
    nlinarith

/-- C9 witness: the clamp behavior instantiated at the first
full-throttle takeoff tick from rest. -/
theorem ground_clamp_only_negative_vertical_witness :
    initialState.position.y ≤ 0.6 ∧
      ((advance trainerConfig initialState fullThrottle (1 / 60)).1.velocity =
        (if (integratedVelocity trainerConfig initialState fullThrottle (1 / 60)).y < 0 then
            Vector3.mk (integratedVelocity trainerConfig initialState fullThrottle (1 / 60)).x 0
              (integratedVelocity trainerConfig initialState fullThrottle (1 / 60)).z
          else integratedVelocity trainerConfig initialState fullThrottle (1 / 60)).multiplyScalar
          0.995 ∧
      (0 < (integratedVelocity trainerConfig initialState fullThrottle (1 / 60)).y →
        0 < (1 / 60 : ℝ) →
        0.6 < (advance trainerConfig initialState fullThrottle (1 / 60)).1.position.y)) :=
  ⟨by norm_num [initialState],
    ground_clamp_only_negative_vertical trainerConfig initialState fullThrottle (1 / 60)
      (by norm_num [initialState])⟩

/-- C10: with the brake held below altitude 1, the whole tick equals the
brake-independent core tick evaluated at thrust 0 and scalar speed
`velocity.length * 0.95`: the brake branch acts only through those two
scalars, and in particular the velocity vector entering integration is the
unscaled previous velocity (it is never multiplied by 0.95). -/
theorem brake_branch_frame_effect (c : AircraftConfig) (s : FlightState)
    (i : ControlState) (d : ℝ) (hb : i.brake = true) (hy2 : s.position.y < 1) :
    advance c s i d = tickCore c s i d 0 (s.velocity.length * 0.95) := by
  rw [advance_eq_tickCore,
    show thrustValOf c s i = 0 from by rw [thrustValOf]; exact if_pos ⟨hb, hy2⟩,
    show effectiveSpeed s i = s.velocity.length * 0.95 from by
      rw [effectiveSpeed]; exact if_pos ⟨hb, hy2⟩]

/-- C10 witness: the brake frame property instantiated at the rest state
with the brake held. -/
theorem brake_branch_frame_effect_witness :
    brakeControls.brake = true ∧ initialState.position.y < 1 ∧
      advance trainerConfig initialState brakeControls (1 / 60) =
        tickCore trainerConfig initialState brakeControls (1 / 60) 0
          (initialState.velocity.length * 0.95) :=
  ⟨rfl, by norm_num [initialState],
    brake_branch_frame_effect trainerConfig initialState brakeControls (1 / 60) rfl
      (by norm_num [initialState])⟩

end FlightSim
